import Mathlib

/-!
Verification development for the WhatsApp broadcast-scheduling service.

The definitions below are a shallow embedding of the repository's Deno edge
functions:

* `Scheduler` embeds the scheduled-message dispatch pass
  (`src/unnamed/part_004`): batch selection, the claim update, the
  per-group send loop with its `message_history` inserts, and the final
  status rollup.
* `StatusMap` embeds the remote-to-internal status mappings of
  `whapi-webhook-simple/index.ts`, `whapi-simple/index.ts` (`handleStatus`)
  and `whapi-check-status/index.ts`.
* `Connect` embeds the QR retry loop of `handleConnect` in
  `whapi-simple/index.ts` and the recursive `attemptGetQR` of
  `src/unnamed/part_007`.
* `CheckStatus` embeds `whapi-check-status/index.ts`.
* `Disconnect` embeds `handleDisconnect` in `whapi-simple/index.ts`.
* `Writes` embeds the unconditional profile-status updates shared by the
  polling and webhook paths.
* `Gate` embeds the trial-expiry gate of `whapi-simple/index.ts`.

Remote HTTP calls are modelled as oracle functions passed in as arguments;
the database tables are modelled as lists of rows.
-/

namespace Scheduler

/-- A row of the `scheduled_messages` table joined with the owner's profile,
as selected by the scheduler (`part_004`, lines 21-29). -/
structure BroadcastRow where
  id : Nat
  userId : Nat
  message : String
  groupIds : List String
  sendAt : Nat
  status : String
  deriving Repr, DecidableEq

/-- The owner's profile fields the scheduler joins in
(`profiles!inner(whapi_token, instance_status)`). -/
structure JoinedProfile where
  whapiToken : Option String
  instanceStatus : String
  deriving Repr, DecidableEq

/-- The batch selection of `part_004` lines 21-29:
`.eq('status','pending').lte('send_at', now).limit(10)`.
The query sends no `order` clause, so rows come back in whatever order the
store returns them; the model keeps them in table order. -/
def selectDue (now : Nat) (table : List BroadcastRow) : List BroadcastRow :=
  (table.filter (fun r => r.status = "pending" && r.sendAt ≤ now)).take 10

/-- The filter of the claim update at `part_004` lines 44-47:
`.update({status:'sending'}).eq('id', message.id)`. The only condition on
the update is the `id` equality; the row's current `status` is not part of
the condition. -/
def claimUpdateMatches (targetId : Nat) (r : BroadcastRow) : Bool :=
  r.id = targetId

/-- Effect of the claim update on the table, together with the number of
rows the update affected. The code never reads the affected-row count. -/
def claimUpdate (targetId : Nat) (table : List BroadcastRow) :
    List BroadcastRow × Nat :=
  (table.map (fun r =>
      if claimUpdateMatches targetId r then { r with status := "sending" } else r),
   (table.filter (claimUpdateMatches targetId ·)).length)

/-- Outcome of one `fetch` of `gate.whapi.cloud/messages/text` for one
group: HTTP ok, HTTP error with a response body, or a thrown exception. -/
inductive SendOutcome where
  | ok (whapiMessageId : String)
  | httpError (errorText : String)
  | exn
  deriving Repr, DecidableEq

/-- A `message_history` insert (`part_004` lines 94-119). -/
structure DeliveryRecord where
  groupId : String
  status : String
  errorMessage : Option String
  whapiMessageId : Option String
  deriving Repr, DecidableEq

/-- The per-group send loop of `part_004` lines 63-125. For each group:
on HTTP ok, increment `successCount` and insert a `sent` history row;
on HTTP error, increment `failCount` and insert a `failed` history row;
on a thrown exception, the `catch` block increments `failCount` and only
logs — no history row is inserted. The loop continues with the remaining
groups in every case. Returns `(successCount, failCount, history inserts)`. -/
def sendLoop (send : String → SendOutcome) : List String → Nat × Nat × List DeliveryRecord
  | [] => (0, 0, [])
  | g :: gs =>
    let rest := sendLoop send gs
    match send g with
    | .ok mid => (rest.1 + 1, rest.2.1, ⟨g, "sent", none, some mid⟩ :: rest.2.2)
    | .httpError e => (rest.1, rest.2.1 + 1, ⟨g, "failed", some e, none⟩ :: rest.2.2)
    | .exn => (rest.1, rest.2.1 + 1, rest.2.2)

/-- Whether a send outcome is the HTTP-ok case (`sendRes.ok`), the one that
increments `successCount`. -/
def isOk : SendOutcome → Bool
  | .ok _ => true
  | .httpError _ => false
  | .exn => false

/-- The rollup of `part_004` lines 128-129:
`successCount > 0 ? (failCount > 0 ? 'partial' : 'sent') : 'failed'`. -/
def finalStatus (successCount failCount : Nat) : String :=
  if successCount > 0 then (if failCount > 0 then "partial" else "sent") else "failed"

/-- Processing of one selected message, `part_004` lines 41-150, after the
claim update has been issued. Returns the sequence of `status` values the
pass writes to the `scheduled_messages` row (in write order) and the
`message_history` rows it inserts. The first write is always the
unconditional claim write of `'sending'`; nothing between the claim write
and the connection check consults how many rows the claim affected. -/
def processMessage (msg : BroadcastRow) (profile : JoinedProfile)
    (send : String → SendOutcome) : List String × List DeliveryRecord :=
  if profile.whapiToken = none ∨ profile.instanceStatus ≠ "connected" then
    (["sending", "failed"], [])
  else
    let r := sendLoop send msg.groupIds
    (["sending", finalStatus r.1 r.2.1], r.2.2)

/-- One full per-broadcast step at the level of the table: the claim update
is applied to the table (conditioned on `id` only), its affected-row count
is discarded, and processing proceeds unconditionally. -/
def processSelected (msg : BroadcastRow) (profile : JoinedProfile)
    (send : String → SendOutcome) (table : List BroadcastRow) :
    List BroadcastRow × List String × List DeliveryRecord :=
  let claimed := claimUpdate msg.id table
  let r := processMessage msg profile send
  (claimed.1, r)

end Scheduler

namespace StatusMap

/-- The webhook receiver's remote-to-internal mapping,
`whapi-webhook-simple/index.ts` lines 32-38: start from `'disconnected'`,
map `authenticated|ready` to `'connected'` and `qr|unauthorized` to
`'unauthorized'`. -/
def webhookNewStatus (remote : String) : String :=
  if remote = "authenticated" ∨ remote = "ready" then "connected"
  else if remote = "qr" ∨ remote = "unauthorized" then "unauthorized"
  else "disconnected"

/-- The `connected` flag of `handleStatus`, `whapi-simple/index.ts` line 383:
`health.status === 'authenticated' || health.status === 'ready'`. -/
def handleStatusConnected (remote : String) : Bool :=
  remote = "authenticated" || remote = "ready"

/-- The status written by `handleStatus`, `whapi-simple/index.ts`
lines 385-390. -/
def handleStatusNewStatus (remote : String) : String :=
  if handleStatusConnected remote then "connected"
  else if remote = "qr" ∨ remote = "unauthorized" then "unauthorized"
  else "disconnected"

/-- The `isConnected` predicate of `whapi-check-status/index.ts` line 146:
`statusData.status === 'active' || statusData.status === 'connected'`. -/
def checkStatusIsConnected (remote : String) : Bool :=
  remote = "active" || remote = "connected"

end StatusMap

namespace Connect

/-- What the gateway serves on one iteration of the post-creation retry
loop of `handleConnect` (`whapi-simple/index.ts` lines 286-336):
`health` is `some s` when `GET /health` answers HTTP ok with status `s`
and `none` when the response is not ok; `qr` is `some code` when
`GET /qr` answers ok with a non-empty code field and `none` otherwise. -/
structure GatewayAttempt where
  health : Option String
  qr : Option String

/-- The data-URI normalisation applied to a retrieved code
(`whapi-simple/index.ts` lines 309-311). -/
def normalizeQr (code : String) : String :=
  if code.startsWith "data:image/" then code else "data:image/png;base64," ++ code

/-- Result of the create path of `handleConnect`: either the scan-me QR
payload (lines 321-328) or the `'Instance created. Please try getting QR
code in a moment.'` acknowledgement after the loop gives up (lines 338-345). -/
inductive ConnectResult where
  | qrCode (payload : String)
  | initializing
  deriving Repr, DecidableEq

/-- One iteration body plus recursion of the loop `while (attempts < 8)`
(`whapi-simple/index.ts` lines 286-336), with the remaining attempt budget
as the first argument. Each iteration makes one health call and, when
health reports `qr` or `unauthorized`, one further QR call; the second
component counts gateway calls made. -/
def connectLoop (gw : Nat → GatewayAttempt) : Nat → Nat → ConnectResult × Nat
  | 0, _ => (.initializing, 0)
  | budget + 1, attempt =>
    match (gw attempt).health with
    | some s =>
      if s = "qr" ∨ s = "unauthorized" then
        match (gw attempt).qr with
        | some code => (.qrCode (normalizeQr code), 2)
        | none =>
          let rest := connectLoop gw budget (attempt + 1)
          (rest.1, rest.2 + 2)
      else
        let rest := connectLoop gw budget (attempt + 1)
        (rest.1, rest.2 + 1)
    | none =>
      let rest := connectLoop gw budget (attempt + 1)
      (rest.1, rest.2 + 1)

/-- The create path's whole retry phase: the code waits 3000 ms once, then
runs the loop with `attempts` from 0 while `attempts < 8`. -/
def connectRetryPhase (gw : Nat → GatewayAttempt) : ConnectResult × Nat :=
  connectLoop gw 8 0

/-- The delay the loop sleeps after the n-th iteration
(`await new Promise(resolve => setTimeout(resolve, 2000))`, line 335):
a constant 2000 ms, the same for every attempt. -/
def retryDelayMs (_attempt : Nat) : Nat := 2000

/-- What the `part_007` gateway serves on one recursion round of
`attemptGetQR` (lines 323-421): `qrTry n` is `some code` when one of the
five QR endpoints answers ok with a code field on round `n`, `none` when
none does; `initOk n` tells whether one of the three init endpoints
answers ok on round `n`. -/
structure QrGateway where
  qrTry : Nat → Option String
  initOk : Nat → Bool

/-- Fuelled version of the recursive `attemptGetQR` of `src/unnamed/part_007`
(lines 323-421). The function tries the QR endpoints; on success it returns
the success payload (`some (some code)`); otherwise, if an init endpoint
answers ok it sleeps and calls itself again — the source recursion at line
407 carries no depth bound, so the model spends one unit of fuel there —
and if no init endpoint answers it returns the failure acknowledgement
(`some none`). `none` means the fuel ran out before the source function
returned. -/
def attemptGetQRFuel (gw : QrGateway) : Nat → Nat → Option (Option String)
  | 0, _ => none
  | fuel + 1, round =>
    match gw.qrTry round with
    | some code => some (some (normalizeQr code))
    | none =>
      if gw.initOk round then attemptGetQRFuel gw fuel (round + 1)
      else some none

/-- `attemptGetQR` diverges against gateway behaviour `gw` when no amount
of fuel makes the fuelled model return. -/
def AttemptGetQRDiverges (gw : QrGateway) : Prop :=
  ∀ fuel round, attemptGetQRFuel gw fuel round = none

/-- A gateway on which every QR endpoint keeps failing while the first
init endpoint keeps answering ok. -/
def stubbornGateway : QrGateway :=
  { qrTry := fun _ => none, initOk := fun _ => true }

end Connect

namespace CheckStatus

/-- The `profiles` columns touched by `whapi-check-status/index.ts` and
`handleDisconnect`. -/
structure ProfileRec where
  instanceId : Option String
  whapiToken : Option String
  instanceStatus : String
  deriving Repr, DecidableEq

/-- The cleanup update of `whapi-check-status/index.ts` lines 78-86 and
117-125 (also the local reset of `handleDisconnect`, lines 439-447 of
`whapi-simple/index.ts`): `instance_id` and `whapi_token` set to null,
`instance_status` set to `'disconnected'`. -/
def clearedProfile (p : ProfileRec) : ProfileRec :=
  { p with instanceId := none, whapiToken := none, instanceStatus := "disconnected" }

/-- The remote gateway as `whapi-check-status` sees it. `listOk` and
`instanceIds` model `GET /partner/v1/instances` (lines 62-72): whether the
response was HTTP ok and, if so, which instance identifiers the returned
array carries (the code accepts a match on either the `instanceId` or the
`id` field of an entry; the model keeps one identifier per entry).
`statusOk`, `statusCode` and `statusBody` model
`GET /partner/v1/instances/{id}/status` (lines 100-146). -/
structure Gateway where
  listOk : Bool
  instanceIds : List String
  statusOk : Bool
  statusCode : Nat
  statusBody : String

/-- The response body fields the function returns that the claims are
about. -/
structure CheckResponse where
  connected : Bool
  requiresNewInstance : Bool
  deriving Repr, DecidableEq

/-- `whapi-check-status/index.ts` lines 50-169, from the point where the
profile has been fetched: no stored `instance_id` answers `connected:false`;
a listing that answers ok without the stored identifier cleans up the row
and answers `requiresNewInstance:true`; an HTTP 404 from the status
endpoint does the same; any other non-ok status answer is a plain failure;
an ok status answer is gated on `active`/`connected` (and promotes the
stored status to `'connected'` when newly connected). Returns the stored
row after the call and the response fields. -/
def checkStatus (p : ProfileRec) (gw : Gateway) : ProfileRec × CheckResponse :=
  match p.instanceId with
  | none => (p, ⟨false, false⟩)
  | some iid =>
    if gw.listOk ∧ iid ∉ gw.instanceIds then
      (clearedProfile p, ⟨false, true⟩)
    else if gw.statusOk then
      let conn := gw.statusBody = "active" ∨ gw.statusBody = "connected"
      let p' := if conn ∧ p.instanceStatus ≠ "connected"
        then { p with instanceStatus := "connected" } else p
      (p', ⟨decide conn, false⟩)
    else if gw.statusCode = 404 then
      (clearedProfile p, ⟨false, true⟩)
    else
      (p, ⟨false, false⟩)

end CheckStatus

namespace Disconnect

open CheckStatus

/-- Outcome of the best-effort `DELETE /channels/{id}`
(`whapi-simple/index.ts` lines 430-433): the call may answer ok, answer a
failure status, or throw. -/
inductive RemoteCall where
  | ok
  | httpError
  | throws
  deriving Repr, DecidableEq

/-- The tail of `handleDisconnect` shared by every control path: the
unconditional local reset (lines 439-447) followed by the success
response (lines 449-455). The `Bool` is the `success` field. -/
def finishDisconnect (p : ProfileRec) : ProfileRec × Bool :=
  (clearedProfile p, true)

/-- `handleDisconnect`, `whapi-simple/index.ts` lines 421-456: when an
`instance_id` is stored the remote deletion is attempted inside
`try { ... } catch (e) { console.log(...) }`, so an ok answer, an error
answer (the response status is never inspected) and a thrown exception all
fall through to the same local reset; without a stored `instance_id` no
remote call is made and the reset still runs. -/
def handleDisconnect (p : ProfileRec) (remote : RemoteCall) : ProfileRec × Bool :=
  match p.instanceId with
  | some _ =>
    match remote with
    | .ok => finishDisconnect p
    | .httpError => finishDisconnect p
    | .throws => finishDisconnect p
  | none => finishDisconnect p

end Disconnect

namespace Writes

/-- One status write against a user's `profiles` row, as issued either by
the webhook receiver (`whapi-webhook-simple/index.ts` lines 40-46) or by
the polling path (`whapi-simple/index.ts` lines 392-399). `writeTime` is
the wall-clock instant at which the store applies the write (the value the
write stamps into `updated_at`); `eventSeq` is the position of the
underlying gateway event in generation order, which no part of either
write path reads. -/
structure StatusWrite where
  status : String
  writeTime : Nat
  eventSeq : Nat
  deriving Repr, DecidableEq

/-- The stored fields the write touches. -/
structure StoredStatus where
  instanceStatus : String
  updatedAt : Nat
  deriving Repr, DecidableEq

/-- Both write sites issue a plain
`update({ instance_status: ..., updated_at: ... })` with no condition on
the currently stored status or timestamp: an unconditional overwrite. -/
def applyWrite (_rec : StoredStatus) (w : StatusWrite) : StoredStatus :=
  { instanceStatus := w.status, updatedAt := w.writeTime }

/-- The store serialises the writes per row; a history of writes is applied
one after the other in the order the store executed them. -/
def applyWrites (rec : StoredStatus) (ws : List StatusWrite) : StoredStatus :=
  ws.foldl applyWrite rec

end Writes

namespace Gate

/-- The profile fields the trial gate of `whapi-simple/index.ts` reads
(lines 59-74). `trialExpiresAt` is the epoch value of `trial_expires_at`
(`none` models a null column, which is falsy in the source's
`profile?.trial_expires_at &&` test). -/
structure GateProfile where
  trialExpiresAt : Option Nat
  paymentPlan : String
  deriving Repr, DecidableEq

/-- `trialExpired`, line 62: `profile?.trial_expires_at &&
new Date(profile.trial_expires_at) < now`; a missing profile or a null
expiry is falsy. -/
def trialExpired (p : Option GateProfile) (now : Nat) : Bool :=
  match p with
  | some pr =>
    match pr.trialExpiresAt with
    | some t => t < now
    | none => false
  | none => false

/-- `isPaid`, line 63: `payment_plan === 'monthly' || payment_plan ===
'yearly'`. -/
def isPaid (p : Option GateProfile) : Bool :=
  match p with
  | some pr => pr.paymentPlan = "monthly" || pr.paymentPlan = "yearly"
  | none => false

/-- Result of the gate: either the early `403` return of lines 66-72, which
fires before the action `switch` so no handler runs and no gateway call is
made, or fall-through to the `switch` on the untouched action. -/
inductive GateResult where
  | blocked (httpStatus : Nat) (error : String)
  | proceed (action : String)
  deriving Repr, DecidableEq

/-- Lines 59-74: the gate applies only when
`action !== 'connect' && action !== 'status' && action !== 'disconnect'`,
and then rejects when the trial is expired and the plan is not paid. -/
def gateAction (action : String) (p : Option GateProfile) (now : Nat) : GateResult :=
  if action ≠ "connect" ∧ action ≠ "status" ∧ action ≠ "disconnect" then
    if trialExpired p now ∧ ¬ isPaid p then
      .blocked 403 "Trial expired"
    else
      .proceed action
  else
    .proceed action

end Gate

namespace Scheduler

/-- A gateway behaviour where the send to group `g2` throws (a network
error raised by `fetch`) while every other send answers HTTP ok. -/
def sendThrowsAtG2 : String → SendOutcome :=
  fun g => if g = "g2" then .exn else .ok ("m-" ++ g)

/-- A gateway behaviour where the send to group `g2` answers an HTTP error
while every other send answers ok. -/
def sendErrorAtG2 : String → SendOutcome :=
  fun g => if g = "g2" then .httpError "boom" else .ok ("m-" ++ g)

/-- A three-recipient broadcast, due in the past, as scheduled. -/
def threeGroupMsg : BroadcastRow :=
  ⟨1, 7, "hello", ["g1", "g2", "g3"], 0, "pending"⟩

/-- A connected owner profile. -/
def connectedProfile : JoinedProfile := ⟨some "tok", "connected"⟩

/-- A two-row table whose store order lists the later-due broadcast first. -/
def twoRowTable : List BroadcastRow :=
  [⟨1, 7, "a", [], 5, "pending"⟩, ⟨2, 7, "b", [], 3, "pending"⟩]

end Scheduler

section Lemmas

/-- The loop's `successCount` counts the HTTP-ok sends. -/
theorem sendLoop_successCount (send : String → Scheduler.SendOutcome) :
    ∀ gs : List String,
      (Scheduler.sendLoop send gs).1 = gs.countP (fun g => Scheduler.isOk (send g)) := by
  intro gs
  induction gs with
  | nil => simp [Scheduler.sendLoop]
  | cons g gs ih =>
    cases h : send g <;>
      simp [Scheduler.sendLoop, h, Scheduler.isOk, List.countP_cons, ih]

/-- The loop's `failCount` counts the sends that were not HTTP ok. -/
theorem sendLoop_failCount (send : String → Scheduler.SendOutcome) :
    ∀ gs : List String,
      (Scheduler.sendLoop send gs).2.1 = gs.countP (fun g => !Scheduler.isOk (send g)) := by
  intro gs
  induction gs with
  | nil => simp [Scheduler.sendLoop]
  | cons g gs ih =>
    cases h : send g <;>
      simp [Scheduler.sendLoop, h, Scheduler.isOk, List.countP_cons, ih]

/-- Each loop iteration makes at most two gateway calls, so a budget of
`b` attempts costs at most `2 * b` calls. -/
theorem connectLoop_calls_le (gw : Nat → Connect.GatewayAttempt) :
    ∀ budget attempt, (Connect.connectLoop gw budget attempt).2 ≤ 2 * budget := by
  intro budget
  induction budget with
  | zero => intro attempt; simp [Connect.connectLoop]
  | succ b ih =>
    intro attempt
    have h := ih (attempt + 1)
    unfold Connect.connectLoop
    cases hh : (gw attempt).health with
    | none =>
      dsimp only
      omega
    | some s =>
      dsimp only
      by_cases hs : s = "qr" ∨ s = "unauthorized"
      · rw [if_pos hs]
        cases hq : (gw attempt).qr with
        | some code => dsimp only; omega
        | none => dsimp only; omega
      · rw [if_neg hs]
        dsimp only
        omega

end Lemmas

/-- C1: the scheduler's claim step is not a compare-and-set on `status`.
The update at `part_004` lines 44-47 is conditioned on `id` alone, so a
broadcast that is already claimed (row status `'sending'`) is still
matched — one row affected, not zero — and the pass, which never reads
the affected-row count, still performs sends for it instead of skipping. -/
theorem claimUpdate_ignores_status :
    (Scheduler.claimUpdate 1 [⟨1, 7, "hello", ["g1"], 0, "sending"⟩]).2 = 1 ∧
    Scheduler.claimUpdateMatches 1 ⟨1, 7, "hello", ["g1"], 0, "sending"⟩ = true ∧
    (Scheduler.processSelected ⟨1, 7, "hello", ["g1"], 0, "pending"⟩
        Scheduler.connectedProfile (fun _ => .ok "m1")
        [⟨1, 7, "hello", ["g1"], 0, "sending"⟩]).2.2 =
      [⟨"g1", "sent", none, some "m1"⟩] := by
  decide

/-- C2: a per-recipient send attempt that raises an exception produces no
DeliveryRecord. Evaluating the send loop of `part_004` lines 63-125 on
three recipients where the send to recipient #2 throws: the loop still
attempts recipient #3, but the history holds only two records (both
`sent`), not the three (2 `sent`, 1 `failed`) the claim requires. -/
theorem sendLoop_no_record_on_exception :
    Scheduler.sendLoop Scheduler.sendThrowsAtG2 ["g1", "g2", "g3"] =
      (2, 1, [⟨"g1", "sent", none, some "m-g1"⟩, ⟨"g3", "sent", none, some "m-g3"⟩]) ∧
    (Scheduler.sendLoop Scheduler.sendThrowsAtG2 ["g1", "g2", "g3"]).2.2.length = 2 := by
  decide

/-- Every recipient is attempted: the loop's two counters add up to the
number of recipient groups. -/
theorem sendLoop_attempts (send : String → Scheduler.SendOutcome) :
    ∀ gs : List String,
      (Scheduler.sendLoop send gs).1 + (Scheduler.sendLoop send gs).2.1 = gs.length := by
  intro gs
  induction gs with
  | nil => simp [Scheduler.sendLoop]
  | cons g gs ih =>
    cases h : send g <;> simp [Scheduler.sendLoop, h] <;> omega

/-- C3: for a claimed broadcast with a connected owner and at least one
recipient, the pass writes exactly the two statuses `['sending', fs]` —
the final status once, after the whole send loop — where `fs` is `sent`
exactly when every recipient's send was HTTP ok, `partial` exactly when
at least one was ok and at least one was not, and `failed` exactly when
none was ok. -/
theorem finalStatus_rollup (msg : Scheduler.BroadcastRow)
    (profile : Scheduler.JoinedProfile) (send : String → Scheduler.SendOutcome)
    (htok : profile.whapiToken ≠ none) (hconn : profile.instanceStatus = "connected")
    (hne : msg.groupIds ≠ []) :
    ∃ fs, (Scheduler.processMessage msg profile send).1 = ["sending", fs] ∧
      (fs = "sent" ↔ ∀ g ∈ msg.groupIds, Scheduler.isOk (send g) = true) ∧
      (fs = "partial" ↔
        ((∃ g ∈ msg.groupIds, Scheduler.isOk (send g) = true) ∧
         (∃ g ∈ msg.groupIds, Scheduler.isOk (send g) = false))) ∧
      (fs = "failed" ↔ ∀ g ∈ msg.groupIds, Scheduler.isOk (send g) = false) := by
  have hcond : ¬(profile.whapiToken = none ∨ profile.instanceStatus ≠ "connected") := by
    push_neg
    exact ⟨htok, hconn⟩
  set s := (Scheduler.sendLoop send msg.groupIds).1 with hsdef
  set f := (Scheduler.sendLoop send msg.groupIds).2.1 with hfdef
  have hproc : (Scheduler.processMessage msg profile send).1 =
      ["sending", Scheduler.finalStatus s f] := by
    simp only [Scheduler.processMessage, if_neg hcond]
  have hs := sendLoop_successCount send msg.groupIds
  have hf := sendLoop_failCount send msg.groupIds
  have hsum := sendLoop_attempts send msg.groupIds
  have hpos : 0 < msg.groupIds.length := List.length_pos.mpr hne
  have hA : (∀ g ∈ msg.groupIds, Scheduler.isOk (send g) = true) ↔ f = 0 := by
    rw [hfdef, hf, List.countP_eq_zero]
    simp
  have hB : (∀ g ∈ msg.groupIds, Scheduler.isOk (send g) = false) ↔ s = 0 := by
    rw [hsdef, hs, List.countP_eq_zero]
    simp
  have hE1 : (∃ g ∈ msg.groupIds, Scheduler.isOk (send g) = true) ↔ 0 < s := by
    rw [hsdef, hs, List.countP_pos_iff]
  have hE2 : (∃ g ∈ msg.groupIds, Scheduler.isOk (send g) = false) ↔ 0 < f := by
    rw [hfdef, hf, List.countP_pos_iff]
    simp
  rw [← hsdef, ← hfdef] at hsum
  refine ⟨Scheduler.finalStatus s f, hproc, ?_, ?_, ?_⟩
  · by_cases hsp : 0 < s
    · by_cases hfp : 0 < f
      · rw [show Scheduler.finalStatus s f = "partial" by
          simp [Scheduler.finalStatus, hsp, hfp]]
        exact iff_of_false (by decide) (fun hAh => absurd (hA.mp hAh) (by omega))
      · rw [show Scheduler.finalStatus s f = "sent" by
          simp [Scheduler.finalStatus, hsp, Nat.eq_zero_of_not_pos hfp]]
        exact iff_of_true rfl (hA.mpr (by omega))
    · rw [show Scheduler.finalStatus s f = "failed" by
        simp [Scheduler.finalStatus, Nat.eq_zero_of_not_pos hsp]]
      exact iff_of_false (by decide) (fun hAh => absurd (hA.mp hAh) (by omega))
  · by_cases hsp : 0 < s
    · by_cases hfp : 0 < f
      · rw [show Scheduler.finalStatus s f = "partial" by
          simp [Scheduler.finalStatus, hsp, hfp]]
        exact iff_of_true rfl ⟨hE1.mpr hsp, hE2.mpr hfp⟩
      · rw [show Scheduler.finalStatus s f = "sent" by
          simp [Scheduler.finalStatus, hsp, Nat.eq_zero_of_not_pos hfp]]
        exact iff_of_false (by decide) (fun h => absurd (hE2.mp h.2) hfp)
    · rw [show Scheduler.finalStatus s f = "failed" by
        simp [Scheduler.finalStatus, Nat.eq_zero_of_not_pos hsp]]
      exact iff_of_false (by decide) (fun h => absurd (hE1.mp h.1) hsp)
  · by_cases hsp : 0 < s
    · by_cases hfp : 0 < f
      · rw [show Scheduler.finalStatus s f = "partial" by
          simp [Scheduler.finalStatus, hsp, hfp]]
        exact iff_of_false (by decide) (fun hBh => absurd (hB.mp hBh) (by omega))
      · rw [show Scheduler.finalStatus s f = "sent" by
          simp [Scheduler.finalStatus, hsp, Nat.eq_zero_of_not_pos hfp]]
        exact iff_of_false (by decide) (fun hBh => absurd (hB.mp hBh) (by omega))
    · rw [show Scheduler.finalStatus s f = "failed" by
        simp [Scheduler.finalStatus, Nat.eq_zero_of_not_pos hsp]]
      exact iff_of_true rfl (hB.mpr (by omega))

/-- Witness for C3 at a concrete run: three recipients where recipient
#2's send answers an HTTP error; the rollup is `partial`, written once
after the claim write. -/
theorem finalStatus_rollup_witness :
    ∃ fs, (Scheduler.processMessage Scheduler.threeGroupMsg Scheduler.connectedProfile
        Scheduler.sendErrorAtG2).1 = ["sending", fs] ∧
      (fs = "sent" ↔ ∀ g ∈ Scheduler.threeGroupMsg.groupIds,
        Scheduler.isOk (Scheduler.sendErrorAtG2 g) = true) ∧
      (fs = "partial" ↔
        ((∃ g ∈ Scheduler.threeGroupMsg.groupIds,
            Scheduler.isOk (Scheduler.sendErrorAtG2 g) = true) ∧
         (∃ g ∈ Scheduler.threeGroupMsg.groupIds,
            Scheduler.isOk (Scheduler.sendErrorAtG2 g) = false))) ∧
      (fs = "failed" ↔ ∀ g ∈ Scheduler.threeGroupMsg.groupIds,
        Scheduler.isOk (Scheduler.sendErrorAtG2 g) = false) :=
  finalStatus_rollup Scheduler.threeGroupMsg Scheduler.connectedProfile
    Scheduler.sendErrorAtG2 (by decide) rfl (by decide)

/-- C4 counterexample: the batch query of `part_004` lines 21-29 sends no
`order` clause, so the processed order is whatever order the store
returns; on a store order listing the later-due row first, the pass
processes `sendAt` values `[5, 3]`, which is not ascending. -/
theorem selectDue_not_ordered :
    (Scheduler.selectDue 10 Scheduler.twoRowTable).map Scheduler.BroadcastRow.sendAt
      = [5, 3] ∧
    decide (List.Sorted (· ≤ ·)
      ((Scheduler.selectDue 10 Scheduler.twoRowTable).map Scheduler.BroadcastRow.sendAt))
      = false := by
  constructor
  · decide
  · decide

/-- C4 amended: each pass selects at most 10 rows, all with status
`pending` and `sendAt ≤ now`, and processes them in the order the store
returned them (a subsequence of the table's order); no `sendAt` ordering
is requested. -/
theorem selectDue_bounded_filtered :
    ∀ (now : Nat) (table : List Scheduler.BroadcastRow),
      (Scheduler.selectDue now table).length ≤ 10 ∧
      (∀ r ∈ Scheduler.selectDue now table, r.status = "pending" ∧ r.sendAt ≤ now) ∧
      (Scheduler.selectDue now table).Sublist table := by
  intro now table
  refine ⟨?_, ?_, ?_⟩
  · exact List.length_take_le 10 _
  · intro r hr
    have hr' := List.mem_of_mem_take hr
    have h := (List.mem_filter.mp hr').2
    simpa using h
  · exact (List.take_sublist _ _).trans (List.filter_sublist _)

/-- Witness for the C4 batch properties at a concrete table: the first
selected row is pending and due, the batch is within bounds and is a
subsequence of the store's order. -/
theorem selectDue_bounded_filtered_witness :
    (Scheduler.selectDue 10 Scheduler.twoRowTable).length ≤ 10 ∧
    ((⟨1, 7, "a", [], 5, "pending"⟩ : Scheduler.BroadcastRow).status = "pending" ∧
      (⟨1, 7, "a", [], 5, "pending"⟩ : Scheduler.BroadcastRow).sendAt ≤ 10) ∧
    (Scheduler.selectDue 10 Scheduler.twoRowTable).Sublist Scheduler.twoRowTable :=
  ⟨(selectDue_bounded_filtered 10 Scheduler.twoRowTable).1,
   (selectDue_bounded_filtered 10 Scheduler.twoRowTable).2.1
     ⟨1, 7, "a", [], 5, "pending"⟩ (by decide),
   (selectDue_bounded_filtered 10 Scheduler.twoRowTable).2.2⟩

/-- C5 counterexample: the remote status `active` maps to `disconnected`,
not `connected`, in both the webhook path and the `handleStatus` polling
path, while the `whapi-check-status` poller counts `active` as connected
but not `authenticated` — so the cited paths neither implement the
claimed `authenticated|ready|active → connected` table nor agree with one
another. -/
theorem statusMap_active_refutes :
    StatusMap.webhookNewStatus "active" = "disconnected" ∧
    StatusMap.handleStatusNewStatus "active" = "disconnected" ∧
    StatusMap.checkStatusIsConnected "authenticated" = false ∧
    StatusMap.checkStatusIsConnected "active" = true := by
  decide

/-- C5 amended: the webhook path and the `handleStatus` polling path use
the identical mapping `authenticated|ready → connected`,
`qr|unauthorized → unauthorized` (the pairing-needed state), anything
else (including `active`) `→ disconnected`; the separate
`whapi-check-status` poller instead treats exactly `active` and
`connected` as connected. -/
theorem statusMap_characterization :
    ∀ s : String,
      StatusMap.webhookNewStatus s = StatusMap.handleStatusNewStatus s ∧
      (StatusMap.webhookNewStatus s = "connected" ↔ (s = "authenticated" ∨ s = "ready")) ∧
      (StatusMap.webhookNewStatus s = "unauthorized" ↔ (s = "qr" ∨ s = "unauthorized")) ∧
      ((s ≠ "authenticated" ∧ s ≠ "ready" ∧ s ≠ "qr" ∧ s ≠ "unauthorized") →
        StatusMap.webhookNewStatus s = "disconnected") ∧
      (StatusMap.checkStatusIsConnected s = true ↔ (s = "active" ∨ s = "connected")) := by
  intro s
  by_cases h1 : s = "authenticated" ∨ s = "ready"
  · rcases h1 with rfl | rfl <;> decide
  · by_cases h2 : s = "qr" ∨ s = "unauthorized"
    · rcases h2 with rfl | rfl <;> decide
    · obtain ⟨n1, n2⟩ := not_or.mp h1
      have w : StatusMap.webhookNewStatus s = "disconnected" := by
        unfold StatusMap.webhookNewStatus
        rw [if_neg h1, if_neg h2]
      have hsc : StatusMap.handleStatusConnected s = false := by
        simp [StatusMap.handleStatusConnected, n1, n2]
      have w' : StatusMap.handleStatusNewStatus s = "disconnected" := by
        unfold StatusMap.handleStatusNewStatus
        rw [hsc]
        simp only [Bool.false_eq_true, if_false]
        rw [if_neg h2]
      refine ⟨by rw [w, w'], ?_, ?_, fun _ => w, by simp [StatusMap.checkStatusIsConnected]⟩
      · rw [w]
        exact iff_of_false (by decide) h1
      · rw [w]
        exact iff_of_false (by decide) h2

/-- Witness for the C5 mapping characterization at concrete statuses: an
unknown remote status maps to `disconnected` in both paths, and the
`whapi-check-status` poller counts the remote status `connected`. -/
theorem statusMap_characterization_witness :
    StatusMap.webhookNewStatus "booting" = StatusMap.handleStatusNewStatus "booting" ∧
    StatusMap.webhookNewStatus "booting" = "disconnected" ∧
    StatusMap.checkStatusIsConnected "connected" = true :=
  ⟨(statusMap_characterization "booting").1,
   (statusMap_characterization "booting").2.2.2.1
     ⟨by decide, by decide, by decide, by decide⟩,
   (statusMap_characterization "connected").2.2.2.2.mpr (Or.inr rfl)⟩

/-- C6 counterexample: the retry delay of the `handleConnect` loop is the
constant 2000 ms for every attempt — it never doubles — and the
`attemptGetQR` variant of `src/unnamed/part_007` has no attempt cap at
all: against a gateway whose init endpoint keeps answering ok while no QR
endpoint ever returns a code, the recursion at its line 407 never
returns, whatever fuel it is given. -/
theorem connect_retry_not_exponential :
    (Connect.retryDelayMs 1 = 2000 ∧ Connect.retryDelayMs 2 = 2000 ∧
      decide (Connect.retryDelayMs 2 = 2 * Connect.retryDelayMs 1) = false) ∧
    Connect.AttemptGetQRDiverges Connect.stubbornGateway := by
  refine ⟨by decide, ?_⟩
  intro fuel
  induction fuel with
  | zero => intro round; rfl
  | succ n ih =>
    intro round
    simpa [Connect.attemptGetQRFuel, Connect.stubbornGateway] using ih (round + 1)

/-- C6 amended: the `whapi-simple` connect path's QR retry phase is
bounded — at most 8 attempts with at most two gateway calls each, so at
most 16 gateway calls for any gateway behaviour, after which the loop has
returned either a pairing-code payload or the initializing
acknowledgement — but the delay between attempts is a constant 2000 ms,
not exponential backoff. -/
theorem connect_retry_bounded :
    ∀ gw : Nat → Connect.GatewayAttempt,
      (Connect.connectRetryPhase gw).2 ≤ 16 ∧ ∀ n, Connect.retryDelayMs n = 2000 := by
  intro gw
  refine ⟨?_, fun _ => rfl⟩
  have h := connectLoop_calls_le gw 8 0
  simpa [Connect.connectRetryPhase] using h

/-- C7: when the stored channel identifier is reported gone by the remote
gateway — absent from the partner instance listing, or answered with a
404 by the status endpoint — `whapi-check-status` clears `instance_id`
and `whapi_token`, sets `instance_status` to `disconnected`, and answers
`connected = false` with `requiresNewInstance = true`. -/
theorem checkStatus_self_heals (p : CheckStatus.ProfileRec) (gw : CheckStatus.Gateway)
    (iid : String) (hid : p.instanceId = some iid)
    (hgone : (gw.listOk = true ∧ iid ∉ gw.instanceIds) ∨
      (¬(gw.listOk = true ∧ iid ∉ gw.instanceIds) ∧
        gw.statusOk = false ∧ gw.statusCode = 404)) :
    CheckStatus.checkStatus p gw = (CheckStatus.clearedProfile p, ⟨false, true⟩) ∧
    (CheckStatus.checkStatus p gw).1.instanceId = none ∧
    (CheckStatus.checkStatus p gw).1.whapiToken = none ∧
    (CheckStatus.checkStatus p gw).1.instanceStatus = "disconnected" := by
  have hmain : CheckStatus.checkStatus p gw = (CheckStatus.clearedProfile p, ⟨false, true⟩) := by
    unfold CheckStatus.checkStatus
    rw [hid]
    dsimp only
    rcases hgone with ⟨h1, h2⟩ | ⟨h1, ⟨h2, h3⟩⟩
    · rw [if_pos (And.intro h1 h2)]
    · rw [if_neg h1, if_neg (by simp [h2] : ¬(gw.statusOk = true)), if_pos h3]
  refine ⟨hmain, ?_, ?_, ?_⟩ <;> rw [hmain] <;> rfl

/-- Witness for C7: a profile whose stored channel `chan-1` is missing
from the partner listing is cleaned up and told to create a new
instance. -/
theorem checkStatus_self_heals_witness :
    CheckStatus.checkStatus ⟨some "chan-1", some "tok", "connected"⟩
        ⟨true, ["other-chan"], false, 404, ""⟩ =
      (CheckStatus.clearedProfile ⟨some "chan-1", some "tok", "connected"⟩, ⟨false, true⟩) ∧
    (CheckStatus.checkStatus ⟨some "chan-1", some "tok", "connected"⟩
        ⟨true, ["other-chan"], false, 404, ""⟩).1.instanceId = none ∧
    (CheckStatus.checkStatus ⟨some "chan-1", some "tok", "connected"⟩
        ⟨true, ["other-chan"], false, 404, ""⟩).1.whapiToken = none ∧
    (CheckStatus.checkStatus ⟨some "chan-1", some "tok", "connected"⟩
        ⟨true, ["other-chan"], false, 404, ""⟩).1.instanceStatus = "disconnected" :=
  checkStatus_self_heals ⟨some "chan-1", some "tok", "connected"⟩
    ⟨true, ["other-chan"], false, 404, ""⟩ "chan-1" rfl (Or.inl ⟨rfl, by decide⟩)

/-- C8: whatever the best-effort remote deletion does — answers ok,
answers an error, or throws — `handleDisconnect` resets the local record
(`instance_id` and `whapi_token` to null, `instance_status` to
`disconnected`) and reports success. -/
theorem disconnect_always_resets :
    ∀ (p : CheckStatus.ProfileRec) (remote : Disconnect.RemoteCall),
      (Disconnect.handleDisconnect p remote).1.instanceId = none ∧
      (Disconnect.handleDisconnect p remote).1.whapiToken = none ∧
      (Disconnect.handleDisconnect p remote).1.instanceStatus = "disconnected" ∧
      (Disconnect.handleDisconnect p remote).2 = true := by
  intro p remote
  rcases p with ⟨iid, tok, st⟩
  cases iid <;> cases remote <;>
    simp [Disconnect.handleDisconnect, Disconnect.finishDisconnect, CheckStatus.clearedProfile]

/-- C9: both the polling and the webhook write sites issue unconditional
overwrites, so for any nonempty history of status writes applied in
wall-clock order (strictly increasing write times), the final stored
status is the status carried by the write with the latest timestamp —
whatever the generation order (`eventSeq`) of the underlying events. -/
theorem last_write_wins (rec : Writes.StoredStatus) (ws : List Writes.StatusWrite)
    (hne : ws ≠ [])
    (hser : ws.Pairwise (fun a b => a.writeTime < b.writeTime)) :
    ∃ wlast ∈ ws, (∀ w ∈ ws, w.writeTime ≤ wlast.writeTime) ∧
      (Writes.applyWrites rec ws).instanceStatus = wlast.status := by
  induction ws generalizing rec with
  | nil => exact absurd rfl hne
  | cons w ws ih =>
    obtain ⟨hw, hps⟩ := List.pairwise_cons.mp hser
    cases ws with
    | nil =>
      refine ⟨w, by simp, by simp, ?_⟩
      simp [Writes.applyWrites, Writes.applyWrite]
    | cons w2 t =>
      obtain ⟨wlast, hmem, hmax, hstat⟩ :=
        ih (Writes.applyWrite rec w) (by simp) hps
      refine ⟨wlast, List.mem_cons_of_mem _ hmem, ?_, ?_⟩
      · intro x hx
        rcases List.mem_cons.mp hx with rfl | hx'
        · exact le_of_lt (hw _ hmem)
        · exact hmax _ hx'
      · simpa [Writes.applyWrites] using hstat

/-- Witness for C9: a poll write stamped at time 5 carrying `connected`
followed by a webhook write stamped at time 9 carrying `disconnected`,
whose underlying event was generated earlier (`eventSeq` 1 versus 2): the
final stored status is the later write's `disconnected`. -/
theorem last_write_wins_witness :
    ∃ wlast ∈ ([⟨"connected", 5, 2⟩, ⟨"disconnected", 9, 1⟩] : List Writes.StatusWrite),
      (∀ w ∈ ([⟨"connected", 5, 2⟩, ⟨"disconnected", 9, 1⟩] : List Writes.StatusWrite),
        w.writeTime ≤ wlast.writeTime) ∧
      (Writes.applyWrites ⟨"initializing", 0⟩
        [⟨"connected", 5, 2⟩, ⟨"disconnected", 9, 1⟩]).instanceStatus = wlast.status :=
  last_write_wins ⟨"initializing", 0⟩
    [⟨"connected", 5, 2⟩, ⟨"disconnected", 9, 1⟩] (by decide) (by decide)

/-- C10: for any action other than `connect`, `status` and `disconnect`,
a stored profile whose `trial_expires_at` lies before the current time
and whose `payment_plan` is neither `monthly` nor `yearly` is rejected
with HTTP 403 and error `Trial expired` before any handler runs; the
three basic actions are never gated. -/
theorem trial_gate :
    (∀ (action : String) (p : Option Gate.GateProfile) (now : Nat)
        (pr : Gate.GateProfile) (t : Nat),
      action ≠ "connect" → action ≠ "status" → action ≠ "disconnect" →
      p = some pr → pr.trialExpiresAt = some t → t < now →
      pr.paymentPlan ≠ "monthly" → pr.paymentPlan ≠ "yearly" →
      Gate.gateAction action p now = .blocked 403 "Trial expired") ∧
    (∀ (p : Option Gate.GateProfile) (now : Nat),
      Gate.gateAction "connect" p now = .proceed "connect" ∧
      Gate.gateAction "status" p now = .proceed "status" ∧
      Gate.gateAction "disconnect" p now = .proceed "disconnect") := by
  constructor
  · intro action p now pr t ha1 ha2 ha3 hp ht hlt hm hy
    unfold Gate.gateAction
    rw [if_pos ⟨ha1, ha2, ha3⟩]
    have hexp : Gate.trialExpired p now = true := by
      simp [Gate.trialExpired, hp, ht, hlt]
    have hpaid : Gate.isPaid p = false := by
      simp [Gate.isPaid, hp, hm, hy]
    rw [if_pos (by simp [hexp, hpaid])]
  · intro p now
    refine ⟨?_, ?_, ?_⟩ <;> unfold Gate.gateAction <;>
      rw [if_neg (by simp)]

/-- Witness for C10: a `send-message` request from a profile whose trial
expired at time 5, checked at time 10 on the `trial` plan, is blocked
with 403 `Trial expired`, while `connect` passes through. -/
theorem trial_gate_witness :
    Gate.gateAction "send-message" (some ⟨some 5, "trial"⟩) 10 =
      .blocked 403 "Trial expired" ∧
    Gate.gateAction "connect" (some ⟨some 5, "trial"⟩) 10 = .proceed "connect" :=
  ⟨trial_gate.1 "send-message" (some ⟨some 5, "trial"⟩) 10 ⟨some 5, "trial"⟩ 5
      (by decide) (by decide) (by decide) rfl rfl (by decide) (by decide) (by decide),
   (trial_gate.2 (some ⟨some 5, "trial"⟩) 10).1⟩
